import Mathlib

/-
Verification development for the bootdev-ts-fileserver-cdn media-upload backend.

The embedding models the two source files:
  src/src/api/videos.ts     : handlerUploadVideo (S3 variant), handlerGetThumbnail and
                              the in-memory registry variant of handlerUploadThumbnail
  src/src/api/thumbnails.ts : the local-disk variant of handlerUploadThumbnail

External collaborators (JWT auth, the video database, the S3 client, the filesystem)
are modelled as explicit data: authentication outcomes are an input field, the
database and the storage backends are association lists inside an explicit system
state, and effect outcomes (random names, write successes, cleanup success) are an
explicit effects record.  JavaScript exceptions become an Except error result, and
the try/finally block of handlerUploadVideo becomes an explicit cleanup applied on
every exit of the try body.  Each handler additionally returns the list of pipeline
steps it entered, in order, so that control-flow claims can be stated.
-/

namespace FileServerCdn

/-- A video record of the external store.  The spec describes it as an identifier,
an owning-user identifier and the two mutable URL fields; the field extra stands
for all remaining fields the handlers never touch (the handlers copy them via the
object spread). -/
structure Video where
  id : String
  userID : String
  videoURL : Option String
  thumbnailURL : Option String
  extra : String
deriving DecidableEq, Repr

/-- Error taxonomy of src/src/api/errors: BadRequestError, NotFoundError,
UserForbiddenError, plus the auth failure and generic internal failures
(storage or filesystem errors propagating out of the handler). -/
inductive Err where
  | badRequest
  | unauthorized
  | userForbidden
  | notFound
  | internal
deriving DecidableEq, Repr

/-- A multipart file field: declared size, declared content type (the File.type
property, written ftype since type is reserved), and the raw bytes. -/
structure UploadFile where
  size : Nat
  ftype : String
  data : List Nat
deriving DecidableEq, Repr

/-- A registry entry of the in-memory Map videoThumbnails in videos.ts. -/
structure Thumbnail where
  data : List Nat
  mediaType : String
deriving DecidableEq, Repr

/-- The configuration struct (src/src/config), restricted to the fields the
handlers read. -/
structure ApiConfig where
  jwtSecret : String
  s3Bucket : String
  s3Region : String
  port : String
  assetsRoot : String
deriving DecidableEq, Repr

/-- All mutable state the handlers can touch: the video database, the S3 bucket
(key to declared content type), the local assets directory (path to bytes), the
in-memory thumbnail registry, and the set of existing temp files. -/
structure SysState where
  db : List (String × Video)
  s3 : List (String × String)
  assets : List (String × List Nat)
  videoThumbnails : List (String × Thumbnail)
  tmp : List String
deriving DecidableEq, Repr

/-- Outcomes of the effectful primitives a handler calls: the hex and base64url
encodings of the 32 random bytes, and whether each write / cleanup call succeeds
(a false flag models the corresponding call throwing). -/
structure Effects where
  randHex : String
  randB64 : String
  tmpWriteOk : Bool
  s3WriteOk : Bool
  diskWriteOk : Bool
  cleanupOk : Bool
deriving DecidableEq, Repr

/-- An upload request after transport decoding: the route parameter, the outcome
of getBearerToken + validateJWT (none models either auth call throwing), and the
multipart file field (none models formData.get not returning a File). -/
structure UploadReq where
  videoId : Option String
  auth : Option String
  file : Option UploadFile
deriving DecidableEq, Repr

/-- The pipeline steps of the orchestrator state machine of the spec; each handler
reports which steps it entered, in order. -/
inductive Step where
  | parseTarget
  | authenticate
  | loadRecord
  | authorize
  | parseUpload
  | validateConstraints
  | persist
  | updateRecord
  | respond
deriving DecidableEq, Repr

/-- Keyed lookup in an association list: the first binding wins.  Models both the
read-by-id access of the external store and JavaScript Map.get. -/
def lookupKV {α : Type} (k : String) : List (String × α) → Option α
  | [] => none
  | (a, b) :: es => if a = k then some b else lookupKV k es

/-- Remove every binding of a key from an association list. -/
def eraseKey {α : Type} (k : String) : List (String × α) → List (String × α)
  | [] => []
  | (a, b) :: es => if a = k then eraseKey k es else (a, b) :: eraseKey k es

/-- Keyed overwrite: the new binding shadows and removes any prior binding for the
same key.  Models the write-by-id access of the external store and JavaScript Map.set. -/
def setKV {α : Type} (k : String) (v : α) (l : List (String × α)) : List (String × α) :=
  (k, v) :: eraseKey k l

/-- Modelled from the spec: getVideo of src/src/db/videos (not under src/) is
key-value access to video metadata by identifier. -/
def getVideo (db : List (String × Video)) (videoId : String) : Option Video :=
  lookupKV videoId db

/-- Modelled from the spec: updateVideo of src/src/db/videos (not under src/)
performs a full-record overwrite keyed by the record identifier. -/
def updateVideo (db : List (String × Video)) (v : Video) : List (String × Video) :=
  setKV v.id v db

/-- 1 << 30 of handlerUploadVideo. -/
def MAX_UPLOAD_SIZE_VIDEO : Nat := 1 <<< 30

/-- 10 << 20 of both thumbnail handlers. -/
def MAX_UPLOAD_SIZE_THUMB : Nat := 10 <<< 20

/-- The finally block of handlerUploadVideo: unlink the temp file, and if the
unlink itself fails (cleanupOk = false) only log, leaving state as it is. -/
def unlinkTemp (fx : Effects) (p : String) (st : SysState) : SysState :=
  if fx.cleanupOk then { st with tmp := st.tmp.filter (fun q => q != p) } else st

namespace Videos

/-- handlerUploadVideo of src/src/api/videos.ts.  Returns the result, the final
system state, and the ordered list of pipeline steps entered. -/
def handlerUploadVideo (cfg : ApiConfig) (fx : Effects) (req : UploadReq) (st : SysState) :
    Except Err Video × SysState × List Step :=
  match req.videoId with
  | none => (Except.error Err.badRequest, st, [Step.parseTarget])
  | some videoId =>
  match req.auth with
  | none => (Except.error Err.unauthorized, st, [Step.parseTarget, Step.authenticate])
  | some userID =>
  match getVideo st.db videoId with
  | none => (Except.error Err.notFound, st,
      [Step.parseTarget, Step.authenticate, Step.loadRecord])
  | some video =>
  if video.userID ≠ userID then
    (Except.error Err.userForbidden, st,
      [Step.parseTarget, Step.authenticate, Step.loadRecord, Step.authorize])
  else
  match req.file with
  | none => (Except.error Err.badRequest, st,
      [Step.parseTarget, Step.authenticate, Step.loadRecord, Step.authorize,
       Step.parseUpload])
  | some videoFile =>
  if videoFile.size > MAX_UPLOAD_SIZE_VIDEO then
    (Except.error Err.badRequest, st,
      [Step.parseTarget, Step.authenticate, Step.loadRecord, Step.authorize,
       Step.parseUpload, Step.validateConstraints])
  else if videoFile.ftype ≠ "video/mp4" then
    (Except.error Err.badRequest, st,
      [Step.parseTarget, Step.authenticate, Step.loadRecord, Step.authorize,
       Step.parseUpload, Step.validateConstraints])
  else
    let fileName := fx.randHex ++ ".mp4"
    let tempFilePath := "/tmp/" ++ fileName
    if fx.tmpWriteOk = false then
      (Except.error Err.internal, unlinkTemp fx tempFilePath st,
        [Step.parseTarget, Step.authenticate, Step.loadRecord, Step.authorize,
         Step.parseUpload, Step.validateConstraints, Step.persist])
    else
      let st1 : SysState := { st with tmp := tempFilePath :: st.tmp }
      if fx.s3WriteOk = false then
        (Except.error Err.internal, unlinkTemp fx tempFilePath st1,
          [Step.parseTarget, Step.authenticate, Step.loadRecord, Step.authorize,
           Step.parseUpload, Step.validateConstraints, Step.persist])
      else
        let st2 : SysState := { st1 with s3 := (fileName, "video/mp4") :: st1.s3 }
        let videoURL :=
          "https://" ++ cfg.s3Bucket ++ ".s3." ++ cfg.s3Region ++ ".amazonaws.com/" ++ fileName
        let updatedVideo : Video := { video with videoURL := some videoURL }
        let st3 : SysState := { st2 with db := updateVideo st2.db updatedVideo }
        (Except.ok updatedVideo, unlinkTemp fx tempFilePath st3,
          [Step.parseTarget, Step.authenticate, Step.loadRecord, Step.authorize,
           Step.parseUpload, Step.validateConstraints, Step.persist,
           Step.updateRecord, Step.respond])

/-- The response of handlerGetThumbnail: raw bytes plus the two headers it sets. -/
structure ThumbResponse where
  body : List Nat
  contentType : String
  cacheControl : String
deriving DecidableEq, Repr

/-- handlerGetThumbnail of src/src/api/videos.ts.  The request carries only the
route parameter: the handler requires no authentication.  The database and the
registry are read from the system state. -/
def handlerGetThumbnail (st : SysState) (videoIdParam : Option String) :
    Except Err ThumbResponse :=
  match videoIdParam with
  | none => Except.error Err.badRequest
  | some videoId =>
  match getVideo st.db videoId with
  | none => Except.error Err.notFound
  | some _ =>
  match lookupKV videoId st.videoThumbnails with
  | none => Except.error Err.notFound
  | some thumbnail =>
    Except.ok { body := thumbnail.data, contentType := thumbnail.mediaType,
                cacheControl := "no-store" }

/-- handlerUploadThumbnail of src/src/api/videos.ts: the in-memory registry
variant.  It performs no content-type validation and needs no randomness. -/
def handlerUploadThumbnail (cfg : ApiConfig) (req : UploadReq) (st : SysState) :
    Except Err Video × SysState × List Step :=
  match req.videoId with
  | none => (Except.error Err.badRequest, st, [Step.parseTarget])
  | some videoId =>
  match req.auth with
  | none => (Except.error Err.unauthorized, st, [Step.parseTarget, Step.authenticate])
  | some userID =>
  match req.file with
  | none => (Except.error Err.badRequest, st,
      [Step.parseTarget, Step.authenticate, Step.parseUpload])
  | some thumbnail =>
  if thumbnail.size > MAX_UPLOAD_SIZE_THUMB then
    (Except.error Err.badRequest, st,
      [Step.parseTarget, Step.authenticate, Step.parseUpload, Step.validateConstraints])
  else
    let mediaType := thumbnail.ftype
    match getVideo st.db videoId with
    | none => (Except.error Err.notFound, st,
        [Step.parseTarget, Step.authenticate, Step.parseUpload, Step.validateConstraints,
         Step.loadRecord])
    | some video =>
    if video.userID ≠ userID then
      (Except.error Err.userForbidden, st,
        [Step.parseTarget, Step.authenticate, Step.parseUpload, Step.validateConstraints,
         Step.loadRecord, Step.authorize])
    else
      let entry : Thumbnail := { data := thumbnail.data, mediaType := mediaType }
      let st1 : SysState :=
        { st with videoThumbnails := setKV videoId entry st.videoThumbnails }
      let thumbnailURL := "http://localhost:" ++ cfg.port ++ "/api/thumbnails/" ++ videoId
      let updatedVideo : Video := { video with thumbnailURL := some thumbnailURL }
      let st2 : SysState := { st1 with db := updateVideo st1.db updatedVideo }
      (Except.ok updatedVideo, st2,
        [Step.parseTarget, Step.authenticate, Step.parseUpload, Step.validateConstraints,
         Step.loadRecord, Step.authorize, Step.persist, Step.updateRecord, Step.respond])

end Videos

namespace Thumbnails

/-- getFileExtension of src/src/api/thumbnails.ts: the fixed mime-to-extension
map with default "jpg". -/
def getFileExtension (mediaType : String) : String :=
  if mediaType = "image/jpeg" then "jpg"
  else if mediaType = "image/jpg" then "jpg"
  else if mediaType = "image/png" then "png"
  else if mediaType = "image/gif" then "gif"
  else if mediaType = "image/webp" then "webp"
  else if mediaType = "image/svg+xml" then "svg"
  else "jpg"

/-- handlerUploadThumbnail of src/src/api/thumbnails.ts: the local-disk variant.
path.join(cfg.assetsRoot, fileName) is modelled as assetsRoot ++ "/" ++ fileName. -/
def handlerUploadThumbnail (cfg : ApiConfig) (fx : Effects) (req : UploadReq) (st : SysState) :
    Except Err Video × SysState × List Step :=
  match req.videoId with
  | none => (Except.error Err.badRequest, st, [Step.parseTarget])
  | some videoId =>
  match req.auth with
  | none => (Except.error Err.unauthorized, st, [Step.parseTarget, Step.authenticate])
  | some userID =>
  match req.file with
  | none => (Except.error Err.badRequest, st,
      [Step.parseTarget, Step.authenticate, Step.parseUpload])
  | some thumbnail =>
  if thumbnail.size > MAX_UPLOAD_SIZE_THUMB then
    (Except.error Err.badRequest, st,
      [Step.parseTarget, Step.authenticate, Step.parseUpload, Step.validateConstraints])
  else
    let mediaType := thumbnail.ftype
    if mediaType ≠ "image/jpeg" ∧ mediaType ≠ "image/png" then
      (Except.error Err.badRequest, st,
        [Step.parseTarget, Step.authenticate, Step.parseUpload, Step.validateConstraints])
    else
    match getVideo st.db videoId with
    | none => (Except.error Err.notFound, st,
        [Step.parseTarget, Step.authenticate, Step.parseUpload, Step.validateConstraints,
         Step.loadRecord])
    | some video =>
    if video.userID ≠ userID then
      (Except.error Err.userForbidden, st,
        [Step.parseTarget, Step.authenticate, Step.parseUpload, Step.validateConstraints,
         Step.loadRecord, Step.authorize])
    else
      let fileExtension := getFileExtension mediaType
      let fileName := fx.randB64 ++ "." ++ fileExtension
      let filePath := cfg.assetsRoot ++ "/" ++ fileName
      if fx.diskWriteOk = false then
        (Except.error Err.internal, st,
          [Step.parseTarget, Step.authenticate, Step.parseUpload, Step.validateConstraints,
           Step.loadRecord, Step.authorize, Step.persist])
      else
        let st1 : SysState := { st with assets := (filePath, thumbnail.data) :: st.assets }
        let thumbnailURL := "http://localhost:" ++ cfg.port ++ "/assets/" ++ fileName
        let updatedVideo : Video := { video with thumbnailURL := some thumbnailURL }
        let st2 : SysState := { st1 with db := updateVideo st1.db updatedVideo }
        (Except.ok updatedVideo, st2,
          [Step.parseTarget, Step.authenticate, Step.parseUpload, Step.validateConstraints,
           Step.loadRecord, Step.authorize, Step.persist, Step.updateRecord, Step.respond])

end Thumbnails

/-- Orientation categories of the metadata extraction service of the spec. -/
inductive Orient where
  | landscape
  | portrait
  | other
deriving DecidableEq, Repr

/-- Modelled from the spec: the classification algorithm of the metadata
extraction service (its source is not under src/).  Compare the aspect ratio
against 16/9 and 9/16 with an absolute-difference tolerance of 0.1, strict
comparison; exact rationals stand in for the floating-point arithmetic. -/
def classifyAspect (r : ℚ) : Orient :=
  if |r - 16 / 9| < 1 / 10 then Orient.landscape
  else if |r - 9 / 16| < 1 / 10 then Orient.portrait
  else Orient.other

/-- Name of an orientation category, used as the storage-key folder. -/
def orientName : Orient → String
  | Orient.landscape => "landscape"
  | Orient.portrait => "portrait"
  | Orient.other => "other"

/-- Modelled from the spec: the orientation-prefixed video storage key of the
key-naming variant whose source is not under src/. -/
def videoKeyOriented (r : ℚ) (randHex : String) : String :=
  orientName (classifyAspect r) ++ "/" ++ randHex ++ ".mp4"

/-- The canonical step order of the spec for an upload orchestrator. -/
def specStepOrder : List Step :=
  [Step.parseTarget, Step.authenticate, Step.loadRecord, Step.authorize,
   Step.parseUpload, Step.validateConstraints, Step.persist, Step.updateRecord,
   Step.respond]

/-- The step order both thumbnail handlers actually follow: the upload is parsed
and validated before the record is loaded and ownership checked. -/
def thumbStepOrder : List Step :=
  [Step.parseTarget, Step.authenticate, Step.parseUpload, Step.validateConstraints,
   Step.loadRecord, Step.authorize, Step.persist, Step.updateRecord, Step.respond]

/-- True exactly on a success result. -/
def exceptOk {ε α : Type} : Except ε α → Bool
  | Except.ok _ => true
  | Except.error _ => false

/-- The reference ratios 16/9 and 9/16 are farther apart than twice the
tolerance, so the two tolerance bands cannot overlap. -/
theorem bands_disjoint (r : ℚ) (h : |r - 9 / 16| < 1 / 10) : ¬ |r - 16 / 9| < 1 / 10 := by
  rw [abs_lt] at h ⊢
  push_neg
  intro h1
  nlinarith [h.1, h.2]

/-- Claim C2: classification of the probed aspect ratio r uses absolute
difference from 16/9 and 9/16 with strict tolerance 0.1, landscape winning the
first test, portrait the second, other everything else including the exact
boundary, and the classification alone fixes the orientation folder of the
storage key. -/
theorem C2_classifyAspect (r : ℚ) :
    (|r - 16 / 9| < 1 / 10 → classifyAspect r = Orient.landscape) ∧
    (|r - 9 / 16| < 1 / 10 → classifyAspect r = Orient.portrait) ∧
    (1 / 10 ≤ |r - 16 / 9| → 1 / 10 ≤ |r - 9 / 16| → classifyAspect r = Orient.other) ∧
    (∀ hex : String, videoKeyOriented r hex =
      orientName (classifyAspect r) ++ "/" ++ hex ++ ".mp4") := by
  refine ⟨fun h => ?_, fun h => ?_, fun h1 h2 => ?_, fun hex => rfl⟩
  · unfold classifyAspect
    rw [if_pos h]
  · unfold classifyAspect
    rw [if_neg (bands_disjoint r h), if_pos h]
  · unfold classifyAspect
    rw [if_neg (not_lt.mpr h1), if_neg (not_lt.mpr h2)]

/-- Witness for C2 at three concrete ratios: 1.7 is landscape, 4/7 is portrait,
and 1 is other. -/
theorem C2_classifyAspect_witness :
    classifyAspect (17 / 10) = Orient.landscape ∧
    classifyAspect (4 / 7) = Orient.portrait ∧
    classifyAspect 1 = Orient.other :=
  ⟨(C2_classifyAspect (17 / 10)).1 (by rw [abs_sub_lt_iff]; norm_num),
   (C2_classifyAspect (4 / 7)).2.1 (by rw [abs_sub_lt_iff]; norm_num),
   (C2_classifyAspect 1).2.2.1 (by rw [le_abs]; right; norm_num)
     (by rw [le_abs]; left; norm_num)⟩

/-- The step trace of the video handler is always an initial segment of the spec
order, and it is the full order exactly on success. -/
theorem videoTraceInit (cfg : ApiConfig) (fx : Effects) (req : UploadReq) (st : SysState) :
    (Videos.handlerUploadVideo cfg fx req st).2.2 =
      specStepOrder.take (Videos.handlerUploadVideo cfg fx req st).2.2.length ∧
    (exceptOk (Videos.handlerUploadVideo cfg fx req st).1 = true ↔
      (Videos.handlerUploadVideo cfg fx req st).2.2 = specStepOrder) := by
  unfold Videos.handlerUploadVideo
  repeat' split
  all_goals simp [specStepOrder, exceptOk]

/-- The step trace of the registry thumbnail handler is always an initial segment of
thumbStepOrder (upload parsing and validation before record load and
authorization), full exactly on success. -/
theorem thumbMemTraceInit (cfg : ApiConfig) (req : UploadReq) (st : SysState) :
    (Videos.handlerUploadThumbnail cfg req st).2.2 =
      thumbStepOrder.take (Videos.handlerUploadThumbnail cfg req st).2.2.length ∧
    (exceptOk (Videos.handlerUploadThumbnail cfg req st).1 = true ↔
      (Videos.handlerUploadThumbnail cfg req st).2.2 = thumbStepOrder) := by
  unfold Videos.handlerUploadThumbnail
  repeat' split
  all_goals simp [thumbStepOrder, exceptOk]

/-- The step trace of the disk thumbnail handler is always an initial segment of
thumbStepOrder, full exactly on success. -/
theorem thumbDiskTraceInit (cfg : ApiConfig) (fx : Effects) (req : UploadReq) (st : SysState) :
    (Thumbnails.handlerUploadThumbnail cfg fx req st).2.2 =
      thumbStepOrder.take (Thumbnails.handlerUploadThumbnail cfg fx req st).2.2.length ∧
    (exceptOk (Thumbnails.handlerUploadThumbnail cfg fx req st).1 = true ↔
      (Thumbnails.handlerUploadThumbnail cfg fx req st).2.2 = thumbStepOrder) := by
  unfold Thumbnails.handlerUploadThumbnail
  dsimp only
  repeat' split
  all_goals simp [thumbStepOrder, exceptOk]

/-- Claim C1 (amended): the video handler enters the pipeline steps in the
spec order (parse target, authenticate, load record, authorize, parse upload,
validate, persist, update, respond) with any failure cutting the trace short,
while both thumbnail handlers authenticate before the multipart body is read but
parse and validate the upload before loading the record and authorizing; in
every handler the trace is an initial segment of its order and is complete
exactly on success. -/
theorem C1_pipelineOrder (cfg : ApiConfig) (fx : Effects) (req : UploadReq) (st : SysState) :
    ((Videos.handlerUploadVideo cfg fx req st).2.2 =
        specStepOrder.take (Videos.handlerUploadVideo cfg fx req st).2.2.length ∧
      (exceptOk (Videos.handlerUploadVideo cfg fx req st).1 = true ↔
        (Videos.handlerUploadVideo cfg fx req st).2.2 = specStepOrder)) ∧
    ((Videos.handlerUploadThumbnail cfg req st).2.2 =
        thumbStepOrder.take (Videos.handlerUploadThumbnail cfg req st).2.2.length ∧
      (exceptOk (Videos.handlerUploadThumbnail cfg req st).1 = true ↔
        (Videos.handlerUploadThumbnail cfg req st).2.2 = thumbStepOrder)) ∧
    ((Thumbnails.handlerUploadThumbnail cfg fx req st).2.2 =
        thumbStepOrder.take (Thumbnails.handlerUploadThumbnail cfg fx req st).2.2.length ∧
      (exceptOk (Thumbnails.handlerUploadThumbnail cfg fx req st).1 = true ↔
        (Thumbnails.handlerUploadThumbnail cfg fx req st).2.2 = thumbStepOrder)) :=
  ⟨videoTraceInit cfg fx req st, thumbMemTraceInit cfg req st,
   thumbDiskTraceInit cfg fx req st⟩

/-- A sample record owned by alice, used by concrete runs. -/
def wVideo : Video :=
  { id := "v1", userID := "alice", videoURL := none, thumbnailURL := none, extra := "t" }

/-- A sample system state whose database holds wVideo under key v1. -/
def wSt : SysState :=
  { db := [("v1", wVideo)], s3 := [], assets := [], videoThumbnails := [], tmp := [] }

/-- A sample system state with an empty database. -/
def wStEmpty : SysState :=
  { db := [], s3 := [], assets := [], videoThumbnails := [], tmp := [] }

/-- A sample configuration. -/
def wCfg : ApiConfig :=
  { jwtSecret := "s", s3Bucket := "bkt", s3Region := "eu", port := "8091",
    assetsRoot := "assets" }

/-- Sample effect outcomes where every effect succeeds. -/
def wFx : Effects :=
  { randHex := "abcd1234", randB64 := "QUJD", tmpWriteOk := true, s3WriteOk := true,
    diskWriteOk := true, cleanupOk := true }

/-- An 11 MiB png upload request from alice. -/
def wReqBigPng : UploadReq :=
  { videoId := some "v1", auth := some "alice",
    file := some { size := 11534336, ftype := "image/png", data := [7] } }

/-- Claim C1 counterexample: on an 11 MiB thumbnail upload for an id with no
database record, the disk thumbnail handler reads the multipart body and
rejects on size without ever loading the record or checking ownership, so
ownership authorization does not complete before the multipart body is read and
the result is BadRequest where the claimed order would give NotFound. -/
theorem C1_counterexample :
    Step.parseUpload ∈ (Thumbnails.handlerUploadThumbnail wCfg wFx wReqBigPng wStEmpty).2.2 ∧
    Step.loadRecord ∉ (Thumbnails.handlerUploadThumbnail wCfg wFx wReqBigPng wStEmpty).2.2 ∧
    Step.authorize ∉ (Thumbnails.handlerUploadThumbnail wCfg wFx wReqBigPng wStEmpty).2.2 ∧
    (Thumbnails.handlerUploadThumbnail wCfg wFx wReqBigPng wStEmpty).1 =
      Except.error Err.badRequest :=
  ⟨by decide, by decide, by decide, rfl⟩

/-- Claim C3: an oversized upload (video above 2^30 bytes, thumbnail above
10 * 2^20 bytes) or a disallowed declared content type (video not video/mp4;
disk-variant thumbnail neither image/jpeg nor image/png) is rejected as
BadRequest with the whole system state unchanged and the trace ending at
constraint validation, before any persistence or metadata step. -/
theorem C3_constraintsRejected :
    (∀ (cfg : ApiConfig) (fx : Effects) (req : UploadReq) (st : SysState)
        (videoId userID : String) (video : Video) (f : UploadFile),
      req.videoId = some videoId → req.auth = some userID →
      getVideo st.db videoId = some video → video.userID = userID →
      req.file = some f → (f.size > 2 ^ 30 ∨ f.ftype ≠ "video/mp4") →
      Videos.handlerUploadVideo cfg fx req st =
        (Except.error Err.badRequest, st, specStepOrder.take 6)) ∧
    (∀ (cfg : ApiConfig) (fx : Effects) (req : UploadReq) (st : SysState)
        (videoId userID : String) (f : UploadFile),
      req.videoId = some videoId → req.auth = some userID → req.file = some f →
      (f.size > 10 * 2 ^ 20 ∨ (f.ftype ≠ "image/jpeg" ∧ f.ftype ≠ "image/png")) →
      Thumbnails.handlerUploadThumbnail cfg fx req st =
        (Except.error Err.badRequest, st, thumbStepOrder.take 4)) ∧
    (∀ (cfg : ApiConfig) (req : UploadReq) (st : SysState)
        (videoId userID : String) (f : UploadFile),
      req.videoId = some videoId → req.auth = some userID → req.file = some f →
      f.size > 10 * 2 ^ 20 →
      Videos.handlerUploadThumbnail cfg req st =
        (Except.error Err.badRequest, st, thumbStepOrder.take 4)) := by
  have hmaxv : MAX_UPLOAD_SIZE_VIDEO = 2 ^ 30 := by decide
  have hmaxt : MAX_UPLOAD_SIZE_THUMB = 10 * 2 ^ 20 := by decide
  refine ⟨?_, ?_, ?_⟩
  · intro cfg fx req st videoId userID video f h1 h2 h3 h4 h5 h6
    unfold Videos.handlerUploadVideo
    rcases h6 with h6 | h6
    · have hs : f.size > MAX_UPLOAD_SIZE_VIDEO := by rw [hmaxv]; exact h6
      simp [h1, h2, h3, h4, h5, hs, specStepOrder]
    · by_cases hs : f.size > MAX_UPLOAD_SIZE_VIDEO
      · simp [h1, h2, h3, h4, h5, hs, specStepOrder]
      · simp [h1, h2, h3, h4, h5, hs, h6, specStepOrder]
  · intro cfg fx req st videoId userID f h1 h2 h3 h4
    unfold Thumbnails.handlerUploadThumbnail
    rcases h4 with h4 | h4
    · have hs : f.size > MAX_UPLOAD_SIZE_THUMB := by rw [hmaxt]; exact h4
      simp [h1, h2, h3, hs, thumbStepOrder]
    · by_cases hs : f.size > MAX_UPLOAD_SIZE_THUMB
      · simp [h1, h2, h3, hs, thumbStepOrder]
      · simp [h1, h2, h3, hs, h4.1, h4.2, thumbStepOrder]
  · intro cfg req st videoId userID f h1 h2 h3 h4
    unfold Videos.handlerUploadThumbnail
    have hs : f.size > MAX_UPLOAD_SIZE_THUMB := by rw [hmaxt]; exact h4
    simp [h1, h2, h3, hs, thumbStepOrder]

/-- An oversized (1 GiB + 1) mp4 upload request from alice. -/
def wReqHugeMp4 : UploadReq :=
  { videoId := some "v1", auth := some "alice",
    file := some { size := 1073741825, ftype := "video/mp4", data := [1] } }

/-- Witness for C3: the 1 GiB + 1 video upload is rejected as BadRequest with
state unchanged, and the 11 MiB thumbnail upload likewise on both variants. -/
theorem C3_constraintsRejected_witness :
    Videos.handlerUploadVideo wCfg wFx wReqHugeMp4 wSt =
      (Except.error Err.badRequest, wSt, specStepOrder.take 6) ∧
    Thumbnails.handlerUploadThumbnail wCfg wFx wReqBigPng wSt =
      (Except.error Err.badRequest, wSt, thumbStepOrder.take 4) ∧
    Videos.handlerUploadThumbnail wCfg wReqBigPng wSt =
      (Except.error Err.badRequest, wSt, thumbStepOrder.take 4) :=
  ⟨C3_constraintsRejected.1 wCfg wFx wReqHugeMp4 wSt "v1" "alice" wVideo _
      rfl rfl (by decide) (by decide) rfl (Or.inl (by decide)),
   C3_constraintsRejected.2.1 wCfg wFx wReqBigPng wSt "v1" "alice" _
      rfl rfl rfl (Or.inl (by decide)),
   C3_constraintsRejected.2.2 wCfg wReqBigPng wSt "v1" "alice" _
      rfl rfl rfl (by decide)⟩

/-- Claim C4: when the authenticated caller is not the record owner, each of the
three upload handlers fails with UserForbidden and returns the system state
exactly as it was, even when the record exists and the file satisfies every
constraint. -/
theorem C4_forbiddenNoMutation :
    (∀ (cfg : ApiConfig) (fx : Effects) (req : UploadReq) (st : SysState)
        (videoId userID : String) (video : Video),
      req.videoId = some videoId → req.auth = some userID →
      getVideo st.db videoId = some video → video.userID ≠ userID →
      Videos.handlerUploadVideo cfg fx req st =
        (Except.error Err.userForbidden, st, specStepOrder.take 4)) ∧
    (∀ (cfg : ApiConfig) (req : UploadReq) (st : SysState)
        (videoId userID : String) (video : Video) (f : UploadFile),
      req.videoId = some videoId → req.auth = some userID → req.file = some f →
      f.size ≤ 10 * 2 ^ 20 →
      getVideo st.db videoId = some video → video.userID ≠ userID →
      Videos.handlerUploadThumbnail cfg req st =
        (Except.error Err.userForbidden, st, thumbStepOrder.take 6)) ∧
    (∀ (cfg : ApiConfig) (fx : Effects) (req : UploadReq) (st : SysState)
        (videoId userID : String) (video : Video) (f : UploadFile),
      req.videoId = some videoId → req.auth = some userID → req.file = some f →
      f.size ≤ 10 * 2 ^ 20 → (f.ftype = "image/jpeg" ∨ f.ftype = "image/png") →
      getVideo st.db videoId = some video → video.userID ≠ userID →
      Thumbnails.handlerUploadThumbnail cfg fx req st =
        (Except.error Err.userForbidden, st, thumbStepOrder.take 6)) := by
  have hmaxt : MAX_UPLOAD_SIZE_THUMB = 10 * 2 ^ 20 := by decide
  refine ⟨?_, ?_, ?_⟩
  · intro cfg fx req st videoId userID video h1 h2 h3 h4
    unfold Videos.handlerUploadVideo
    simp [h1, h2, h3, h4, specStepOrder]
  · intro cfg req st videoId userID video f h1 h2 h3 h4 h5 h6
    unfold Videos.handlerUploadThumbnail
    have hs : ¬ f.size > MAX_UPLOAD_SIZE_THUMB := by rw [hmaxt]; exact not_lt.mpr h4
    simp [h1, h2, h3, hs, h5, h6, thumbStepOrder]
  · intro cfg fx req st videoId userID video f h1 h2 h3 h4 h5 h6 h7
    unfold Thumbnails.handlerUploadThumbnail
    have hs : ¬ f.size > MAX_UPLOAD_SIZE_THUMB := by rw [hmaxt]; exact not_lt.mpr h4
    rcases h5 with h5 | h5 <;> simp [h1, h2, h3, hs, h5, h6, h7, thumbStepOrder]

/-- A valid 5-byte png upload request, but authenticated as mallory. -/
def wReqMalloryPng : UploadReq :=
  { videoId := some "v1", auth := some "mallory",
    file := some { size := 5, ftype := "image/png", data := [1, 2, 3, 4, 5] } }

/-- A valid mp4 upload request authenticated as mallory. -/
def wReqMalloryMp4 : UploadReq :=
  { videoId := some "v1", auth := some "mallory",
    file := some { size := 5, ftype := "video/mp4", data := [1, 2, 3, 4, 5] } }

/-- Witness for C4: mallory uploading to the record of alice v1 gets UserForbidden
from all three handlers with the state returned untouched. -/
theorem C4_forbiddenNoMutation_witness :
    Videos.handlerUploadVideo wCfg wFx wReqMalloryMp4 wSt =
      (Except.error Err.userForbidden, wSt, specStepOrder.take 4) ∧
    Videos.handlerUploadThumbnail wCfg wReqMalloryPng wSt =
      (Except.error Err.userForbidden, wSt, thumbStepOrder.take 6) ∧
    Thumbnails.handlerUploadThumbnail wCfg wFx wReqMalloryPng wSt =
      (Except.error Err.userForbidden, wSt, thumbStepOrder.take 6) :=
  ⟨C4_forbiddenNoMutation.1 wCfg wFx wReqMalloryMp4 wSt "v1" "mallory" wVideo
      rfl rfl (by decide) (by decide),
   C4_forbiddenNoMutation.2.1 wCfg wReqMalloryPng wSt "v1" "mallory" wVideo _
      rfl rfl rfl (by decide) (by decide) (by decide),
   C4_forbiddenNoMutation.2.2 wCfg wFx wReqMalloryPng wSt "v1" "mallory" wVideo _
      rfl rfl rfl (by decide) (Or.inr rfl) (by decide) (by decide)⟩

/-- Claim C5: when the object-store write fails during a video upload, the
handler propagates an internal error, never enters the record-update step, and
leaves the database exactly unchanged. -/
theorem C5_storageFailureNoUpdate (cfg : ApiConfig) (fx : Effects) (req : UploadReq)
    (st : SysState) (videoId userID : String) (video : Video) (f : UploadFile)
    (h1 : req.videoId = some videoId) (h2 : req.auth = some userID)
    (h3 : getVideo st.db videoId = some video) (h4 : video.userID = userID)
    (h5 : req.file = some f) (h6 : f.size ≤ 2 ^ 30) (h7 : f.ftype = "video/mp4")
    (h8 : fx.s3WriteOk = false) :
    (Videos.handlerUploadVideo cfg fx req st).1 = Except.error Err.internal ∧
    ((Videos.handlerUploadVideo cfg fx req st).2.1).db = st.db ∧
    Step.updateRecord ∉ (Videos.handlerUploadVideo cfg fx req st).2.2 := by
  have hs : ¬ f.size > MAX_UPLOAD_SIZE_VIDEO := by
    have : MAX_UPLOAD_SIZE_VIDEO = 2 ^ 30 := by decide
    rw [this]; exact not_lt.mpr h6
  unfold Videos.handlerUploadVideo
  cases htmp : fx.tmpWriteOk <;>
    simp [h1, h2, h3, h4, h5, h7, h8, hs, htmp, unlinkTemp] <;>
    cases hcl : fx.cleanupOk <;> simp [hcl]

/-- An in-range mp4 upload request from alice. -/
def wReqGoodMp4 : UploadReq :=
  { videoId := some "v1", auth := some "alice",
    file := some { size := 5242880, ftype := "video/mp4", data := [9] } }

/-- Effect outcomes where the S3 write fails and everything else succeeds. -/
def wFxS3Fail : Effects :=
  { randHex := "abcd1234", randB64 := "QUJD", tmpWriteOk := true, s3WriteOk := false,
    diskWriteOk := true, cleanupOk := true }

/-- Witness for C5: with a failing S3 write, the valid 5 MiB upload of alice yields an
internal error, an unchanged database, and no record-update step. -/
theorem C5_storageFailureNoUpdate_witness :
    (Videos.handlerUploadVideo wCfg wFxS3Fail wReqGoodMp4 wSt).1 = Except.error Err.internal ∧
    ((Videos.handlerUploadVideo wCfg wFxS3Fail wReqGoodMp4 wSt).2.1).db = wSt.db ∧
    Step.updateRecord ∉ (Videos.handlerUploadVideo wCfg wFxS3Fail wReqGoodMp4 wSt).2.2 :=
  C5_storageFailureNoUpdate wCfg wFxS3Fail wReqGoodMp4 wSt "v1" "alice" wVideo _
    rfl rfl (by decide) (by decide) rfl (by decide) rfl rfl

/-- Claim C6: for every video upload that reaches the persistence step, the
finally-style cleanup removes the scratch file on every exit path (temp-write
failure, storage failure, success) whenever the unlink itself succeeds, and a
failing unlink is only logged: the request result is the same whatever the
cleanup outcome. -/
theorem C6_cleanupEveryExit (cfg : ApiConfig) (fx : Effects) (req : UploadReq)
    (st : SysState) (videoId userID : String) (video : Video) (f : UploadFile)
    (h1 : req.videoId = some videoId) (h2 : req.auth = some userID)
    (h3 : getVideo st.db videoId = some video) (h4 : video.userID = userID)
    (h5 : req.file = some f) (h6 : f.size ≤ 2 ^ 30) (h7 : f.ftype = "video/mp4") :
    (fx.cleanupOk = true →
      ("/tmp/" ++ fx.randHex ++ ".mp4") ∉ ((Videos.handlerUploadVideo cfg fx req st).2.1).tmp) ∧
    (∀ b1 b2 : Bool,
      (Videos.handlerUploadVideo cfg { fx with cleanupOk := b1 } req st).1 =
        (Videos.handlerUploadVideo cfg { fx with cleanupOk := b2 } req st).1) := by
  have hs : ¬ f.size > MAX_UPLOAD_SIZE_VIDEO := by
    have : MAX_UPLOAD_SIZE_VIDEO = 2 ^ 30 := by decide
    rw [this]; exact not_lt.mpr h6
  constructor
  · intro hcl
    unfold Videos.handlerUploadVideo
    cases htmp : fx.tmpWriteOk <;> cases hs3 : fx.s3WriteOk <;>
      simp [h1, h2, h3, h4, h5, h7, hs, htmp, hs3, unlinkTemp, hcl, List.mem_filter,
        String.append_assoc]
  · intro b1 b2
    unfold Videos.handlerUploadVideo
    cases htmp : fx.tmpWriteOk <;> cases hs3 : fx.s3WriteOk <;>
      simp [h1, h2, h3, h4, h5, h7, hs, htmp, hs3, unlinkTemp]

/-- Effect outcomes where cleanup fails. -/
def wFxCleanupFail : Effects :=
  { randHex := "abcd1234", randB64 := "QUJD", tmpWriteOk := true, s3WriteOk := true,
    diskWriteOk := true, cleanupOk := false }

/-- Witness for C6: on a successful upload by alice the scratch file is gone from
the final state, and flipping the cleanup outcome leaves the result identical. -/
theorem C6_cleanupEveryExit_witness :
    ("/tmp/" ++ wFx.randHex ++ ".mp4") ∉ ((Videos.handlerUploadVideo wCfg wFx wReqGoodMp4 wSt).2.1).tmp ∧
    (Videos.handlerUploadVideo wCfg { wFx with cleanupOk := true } wReqGoodMp4 wSt).1 =
      (Videos.handlerUploadVideo wCfg { wFx with cleanupOk := false } wReqGoodMp4 wSt).1 :=
  ⟨(C6_cleanupEveryExit wCfg wFx wReqGoodMp4 wSt "v1" "alice" wVideo _
      rfl rfl (by decide) (by decide) rfl (by decide) rfl).1 rfl,
   (C6_cleanupEveryExit wCfg wFx wReqGoodMp4 wSt "v1" "alice" wVideo _
      rfl rfl (by decide) (by decide) rfl (by decide) rfl).2 true false⟩

/-- Claim C7: on success the video is stored under key randHex ++ ".mp4" with
content type video/mp4 and the record URL is exactly
https:// bucket .s3. region .amazonaws.com/ key; the disk thumbnail is stored
under randB64 ++ "." ++ ext where ext comes from the fixed mime map (so every
possible extension lies in a fixed five-element set, never in user-controlled
text), and its URL is the assets URL of that key. -/
theorem C7_storageKeyAndURL :
    (∀ (cfg : ApiConfig) (fx : Effects) (req : UploadReq) (st : SysState)
        (videoId userID : String) (video : Video) (f : UploadFile),
      req.videoId = some videoId → req.auth = some userID →
      getVideo st.db videoId = some video → video.userID = userID →
      req.file = some f → f.size ≤ 2 ^ 30 → f.ftype = "video/mp4" →
      fx.tmpWriteOk = true → fx.s3WriteOk = true →
      lookupKV (fx.randHex ++ ".mp4") ((Videos.handlerUploadVideo cfg fx req st).2.1).s3 =
        some "video/mp4" ∧
      (Videos.handlerUploadVideo cfg fx req st).1 =
        Except.ok { video with videoURL := some ("https://" ++ cfg.s3Bucket ++ ".s3." ++
          cfg.s3Region ++ ".amazonaws.com/" ++ (fx.randHex ++ ".mp4")) }) ∧
    (∀ mt : String, Thumbnails.getFileExtension mt = "jpg" ∨
      Thumbnails.getFileExtension mt = "png" ∨ Thumbnails.getFileExtension mt = "gif" ∨
      Thumbnails.getFileExtension mt = "webp" ∨ Thumbnails.getFileExtension mt = "svg") ∧
    (∀ (cfg : ApiConfig) (fx : Effects) (req : UploadReq) (st : SysState)
        (videoId userID : String) (video : Video) (f : UploadFile),
      req.videoId = some videoId → req.auth = some userID → req.file = some f →
      f.size ≤ 10 * 2 ^ 20 → (f.ftype = "image/jpeg" ∨ f.ftype = "image/png") →
      getVideo st.db videoId = some video → video.userID = userID →
      fx.diskWriteOk = true →
      lookupKV (cfg.assetsRoot ++ "/" ++ (fx.randB64 ++ "." ++ Thumbnails.getFileExtension f.ftype))
        ((Thumbnails.handlerUploadThumbnail cfg fx req st).2.1).assets = some f.data ∧
      (Thumbnails.handlerUploadThumbnail cfg fx req st).1 =
        Except.ok { video with thumbnailURL := some ("http://localhost:" ++ cfg.port ++
          "/assets/" ++ (fx.randB64 ++ "." ++ Thumbnails.getFileExtension f.ftype)) }) := by
  refine ⟨?_, ?_, ?_⟩
  · intro cfg fx req st videoId userID video f h1 h2 h3 h4 h5 h6 h7 h8 h9
    have hs : ¬ f.size > MAX_UPLOAD_SIZE_VIDEO := by
      have : MAX_UPLOAD_SIZE_VIDEO = 2 ^ 30 := by decide
      rw [this]; exact not_lt.mpr h6
    unfold Videos.handlerUploadVideo
    cases hcl : fx.cleanupOk <;>
      simp [h1, h2, h3, h4, h5, h7, h8, h9, hs, hcl, unlinkTemp, lookupKV]
  · intro mt
    unfold Thumbnails.getFileExtension
    repeat' split
    all_goals simp
  · intro cfg fx req st videoId userID video f h1 h2 h3 h4 h5 h6 h7 h8
    have hs : ¬ f.size > MAX_UPLOAD_SIZE_THUMB := by
      have : MAX_UPLOAD_SIZE_THUMB = 10 * 2 ^ 20 := by decide
      rw [this]; exact not_lt.mpr h4
    unfold Thumbnails.handlerUploadThumbnail
    rcases h5 with h5 | h5 <;> simp [h1, h2, h3, h5, h6, h7, h8, hs, lookupKV]

/-- A valid 5-byte png upload request from alice. -/
def wReqAlicePng : UploadReq :=
  { videoId := some "v1", auth := some "alice",
    file := some { size := 5, ftype := "image/png", data := [1, 2, 3, 4, 5] } }

/-- Witness for C7: the concrete successful runs store under abcd1234.mp4 and
QUJD.png and set the deterministic URLs. -/
theorem C7_storageKeyAndURL_witness :
    lookupKV "abcd1234.mp4" ((Videos.handlerUploadVideo wCfg wFx wReqGoodMp4 wSt).2.1).s3 =
      some "video/mp4" ∧
    (Videos.handlerUploadVideo wCfg wFx wReqGoodMp4 wSt).1 =
      Except.ok { wVideo with
        videoURL := some "https://bkt.s3.eu.amazonaws.com/abcd1234.mp4" } ∧
    Thumbnails.getFileExtension "application/x-text" = "jpg" ∧
    lookupKV "assets/QUJD.png"
      ((Thumbnails.handlerUploadThumbnail wCfg wFx wReqAlicePng wSt).2.1).assets =
        some [1, 2, 3, 4, 5] :=
  ⟨((C7_storageKeyAndURL.1 wCfg wFx wReqGoodMp4 wSt "v1" "alice" wVideo _
      rfl rfl (by decide) (by decide) rfl (by decide) rfl rfl rfl).1),
   ((C7_storageKeyAndURL.1 wCfg wFx wReqGoodMp4 wSt "v1" "alice" wVideo _
      rfl rfl (by decide) (by decide) rfl (by decide) rfl rfl rfl).2),
   (C7_storageKeyAndURL.2.1 "application/x-text").elim
      (fun h => h) (fun h => by revert h; decide),
   ((C7_storageKeyAndURL.2.2 wCfg wFx wReqAlicePng wSt "v1" "alice" wVideo _
      rfl rfl rfl (by decide) (Or.inr rfl) (by decide) (by decide) rfl).1)⟩

/-- Looking up a key is unaffected by erasing the bindings of a different key. -/
theorem lookupKV_eraseKey_ne {α : Type} (k j : String) (h : k ≠ j) :
    ∀ l : List (String × α), lookupKV k (eraseKey j l) = lookupKV k l := by
  intro l
  induction l with
  | nil => rfl
  | cons p l ih =>
    obtain ⟨a, b⟩ := p
    have hjk : ¬ j = k := fun hh => h hh.symm
    by_cases ha : a = j
    · have hak : ¬ a = k := fun hh => h (hh.symm.trans ha)
      simp [eraseKey, lookupKV, ha, hak, hjk, ih]
    · by_cases hk : a = k <;> simp [eraseKey, lookupKV, ha, hk, hjk, h, ih]

/-- Claim C8: the registry put unconditionally overwrites the entry for its key
(last writer wins) and touches no other key; after a successful registry upload
a GET for the id returns exactly the stored bytes with the stored content type
and the no-store cache directive; and a GET fails NotFound when the registry has
no entry or the database has no record.  The GET request carries only the route
parameter: no authentication input exists. -/
theorem C8_registrySemantics :
    (∀ (reg : List (String × Thumbnail)) (id : String) (t1 t2 : Thumbnail),
      lookupKV id (setKV id t2 (setKV id t1 reg)) = some t2) ∧
    (∀ (reg : List (String × Thumbnail)) (id id2 : String) (t : Thumbnail),
      id2 ≠ id → lookupKV id2 (setKV id t reg) = lookupKV id2 reg) ∧
    (∀ (cfg : ApiConfig) (req : UploadReq) (st : SysState)
        (videoId userID : String) (video : Video) (f : UploadFile),
      req.videoId = some videoId → req.auth = some userID → req.file = some f →
      f.size ≤ 10 * 2 ^ 20 → getVideo st.db videoId = some video →
      video.userID = userID → video.id = videoId →
      Videos.handlerGetThumbnail ((Videos.handlerUploadThumbnail cfg req st).2.1)
          (some videoId) =
        Except.ok { body := f.data, contentType := f.ftype, cacheControl := "no-store" }) ∧
    (∀ (st : SysState) (videoId : String) (video : Video),
      getVideo st.db videoId = some video →
      lookupKV videoId st.videoThumbnails = none →
      Videos.handlerGetThumbnail st (some videoId) = Except.error Err.notFound) ∧
    (∀ (st : SysState) (videoId : String),
      getVideo st.db videoId = none →
      Videos.handlerGetThumbnail st (some videoId) = Except.error Err.notFound) := by
  refine ⟨?_, ?_, ?_, ?_, ?_⟩
  · intro reg id t1 t2
    simp [setKV, lookupKV]
  · intro reg id id2 t h
    have hn : ¬ id = id2 := fun hh => h hh.symm
    simp only [setKV, lookupKV, if_neg hn]
    exact lookupKV_eraseKey_ne id2 id h reg
  · intro cfg req st videoId userID video f h1 h2 h3 h4 h5 h6 h7
    have hs : ¬ f.size > MAX_UPLOAD_SIZE_THUMB := by
      have : MAX_UPLOAD_SIZE_THUMB = 10 * 2 ^ 20 := by decide
      rw [this]; exact not_lt.mpr h4
    unfold Videos.handlerUploadThumbnail
    simp [h1, h2, h3, h5, h6, hs]
    unfold Videos.handlerGetThumbnail
    simp [h7, getVideo, updateVideo, setKV, lookupKV]
  · intro st videoId video h1 h2
    unfold Videos.handlerGetThumbnail
    simp [h1, h2]
  · intro st videoId h1
    unfold Videos.handlerGetThumbnail
    simp [h1]

/-- Witness for C8 on concrete data: double put keeps the second entry, put
leaves an unrelated key alone, GET after the upload by alice serves the bytes with
no-store, and both absence cases give NotFound. -/
theorem C8_registrySemantics_witness :
    lookupKV "v1" (setKV "v1" ({ data := [2], mediaType := "b" } : Thumbnail)
      (setKV "v1" ({ data := [1], mediaType := "a" } : Thumbnail) [])) =
        some { data := [2], mediaType := "b" } ∧
    lookupKV "v2" (setKV "v1" ({ data := [2], mediaType := "b" } : Thumbnail)
      [("v2", ({ data := [9], mediaType := "z" } : Thumbnail))]) =
        some { data := [9], mediaType := "z" } ∧
    Videos.handlerGetThumbnail ((Videos.handlerUploadThumbnail wCfg wReqAlicePng wSt).2.1)
        (some "v1") =
      Except.ok { body := [1, 2, 3, 4, 5], contentType := "image/png",
                  cacheControl := "no-store" } ∧
    Videos.handlerGetThumbnail wSt (some "v1") = Except.error Err.notFound ∧
    Videos.handlerGetThumbnail wStEmpty (some "v1") = Except.error Err.notFound :=
  ⟨C8_registrySemantics.1 [] "v1" { data := [1], mediaType := "a" } { data := [2], mediaType := "b" },
   C8_registrySemantics.2.1 [("v2", { data := [9], mediaType := "z" })] "v1" "v2"
     { data := [2], mediaType := "b" } (by decide),
   C8_registrySemantics.2.2.1 wCfg wReqAlicePng wSt "v1" "alice" wVideo _
     rfl rfl rfl (by decide) (by decide) (by decide) (by decide),
   C8_registrySemantics.2.2.2.1 wSt "v1" wVideo (by decide) (by decide),
   C8_registrySemantics.2.2.2.2 wStEmpty "v1" (by decide)⟩

/-- Claim C9: on every successful upload the record written back is the loaded
record with only the relevant URL field replaced (identifier, owner and every
other field copied by the spread), it is what the database then holds for the
id, and it is exactly the response body. -/
theorem C9_frameCondition :
    (∀ (cfg : ApiConfig) (fx : Effects) (req : UploadReq) (st : SysState)
        (videoId userID : String) (video : Video) (f : UploadFile),
      req.videoId = some videoId → req.auth = some userID →
      getVideo st.db videoId = some video → video.userID = userID →
      video.id = videoId → req.file = some f → f.size ≤ 2 ^ 30 →
      f.ftype = "video/mp4" → fx.tmpWriteOk = true → fx.s3WriteOk = true →
      (Videos.handlerUploadVideo cfg fx req st).1 =
        Except.ok { video with videoURL := some ("https://" ++ cfg.s3Bucket ++ ".s3." ++
          cfg.s3Region ++ ".amazonaws.com/" ++ (fx.randHex ++ ".mp4")) } ∧
      getVideo ((Videos.handlerUploadVideo cfg fx req st).2.1).db videoId =
        some { video with videoURL := some ("https://" ++ cfg.s3Bucket ++ ".s3." ++
          cfg.s3Region ++ ".amazonaws.com/" ++ (fx.randHex ++ ".mp4")) }) ∧
    (∀ (cfg : ApiConfig) (req : UploadReq) (st : SysState)
        (videoId userID : String) (video : Video) (f : UploadFile),
      req.videoId = some videoId → req.auth = some userID → req.file = some f →
      f.size ≤ 10 * 2 ^ 20 → getVideo st.db videoId = some video →
      video.userID = userID → video.id = videoId →
      (Videos.handlerUploadThumbnail cfg req st).1 =
        Except.ok { video with thumbnailURL := some ("http://localhost:" ++ cfg.port ++
          "/api/thumbnails/" ++ videoId) } ∧
      getVideo ((Videos.handlerUploadThumbnail cfg req st).2.1).db videoId =
        some { video with thumbnailURL := some ("http://localhost:" ++ cfg.port ++
          "/api/thumbnails/" ++ videoId) }) ∧
    (∀ (cfg : ApiConfig) (fx : Effects) (req : UploadReq) (st : SysState)
        (videoId userID : String) (video : Video) (f : UploadFile),
      req.videoId = some videoId → req.auth = some userID → req.file = some f →
      f.size ≤ 10 * 2 ^ 20 → (f.ftype = "image/jpeg" ∨ f.ftype = "image/png") →
      getVideo st.db videoId = some video → video.userID = userID →
      video.id = videoId → fx.diskWriteOk = true →
      (Thumbnails.handlerUploadThumbnail cfg fx req st).1 =
        Except.ok { video with thumbnailURL := some ("http://localhost:" ++ cfg.port ++
          "/assets/" ++ (fx.randB64 ++ "." ++ Thumbnails.getFileExtension f.ftype)) } ∧
      getVideo ((Thumbnails.handlerUploadThumbnail cfg fx req st).2.1).db videoId =
        some { video with thumbnailURL := some ("http://localhost:" ++ cfg.port ++
          "/assets/" ++ (fx.randB64 ++ "." ++ Thumbnails.getFileExtension f.ftype)) }) := by
  refine ⟨?_, ?_, ?_⟩
  · intro cfg fx req st videoId userID video f h1 h2 h3 h4 h5 h6 h7 h8 h9 h10
    have hs : ¬ f.size > MAX_UPLOAD_SIZE_VIDEO := by
      have : MAX_UPLOAD_SIZE_VIDEO = 2 ^ 30 := by decide
      rw [this]; exact not_lt.mpr h7
    unfold Videos.handlerUploadVideo
    cases hcl : fx.cleanupOk <;>
      (simp [h1, h2, h3, h4, h5, h6, h8, h9, h10, hs, hcl, unlinkTemp];
       simp [h5, getVideo, updateVideo, setKV, lookupKV])
  · intro cfg req st videoId userID video f h1 h2 h3 h4 h5 h6 h7
    have hs : ¬ f.size > MAX_UPLOAD_SIZE_THUMB := by
      have : MAX_UPLOAD_SIZE_THUMB = 10 * 2 ^ 20 := by decide
      rw [this]; exact not_lt.mpr h4
    unfold Videos.handlerUploadThumbnail
    simp [h1, h2, h3, h5, h6, hs]
    simp [h7, getVideo, updateVideo, setKV, lookupKV]
  · intro cfg fx req st videoId userID video f h1 h2 h3 h4 h5 h6 h7 h8 h9
    have hs : ¬ f.size > MAX_UPLOAD_SIZE_THUMB := by
      have : MAX_UPLOAD_SIZE_THUMB = 10 * 2 ^ 20 := by decide
      rw [this]; exact not_lt.mpr h4
    unfold Thumbnails.handlerUploadThumbnail
    rcases h5 with h5 | h5 <;>
      (simp [h1, h2, h3, h5, h6, h7, h9, hs];
       simp [h8, getVideo, updateVideo, setKV, lookupKV])

/-- Witness for C9: the three successful uploads by alice each respond with the
loaded record plus only the new URL, and the database holds that same record. -/
theorem C9_frameCondition_witness :
    (Videos.handlerUploadVideo wCfg wFx wReqGoodMp4 wSt).1 =
      Except.ok { wVideo with
        videoURL := some "https://bkt.s3.eu.amazonaws.com/abcd1234.mp4" } ∧
    (Videos.handlerUploadThumbnail wCfg wReqAlicePng wSt).1 =
      Except.ok { wVideo with
        thumbnailURL := some "http://localhost:8091/api/thumbnails/v1" } ∧
    (Thumbnails.handlerUploadThumbnail wCfg wFx wReqAlicePng wSt).1 =
      Except.ok { wVideo with
        thumbnailURL := some "http://localhost:8091/assets/QUJD.png" } :=
  ⟨(C9_frameCondition.1 wCfg wFx wReqGoodMp4 wSt "v1" "alice" wVideo _
      rfl rfl (by decide) (by decide) (by decide) rfl (by decide) rfl rfl rfl).1,
   (C9_frameCondition.2.1 wCfg wReqAlicePng wSt "v1" "alice" wVideo _
      rfl rfl rfl (by decide) (by decide) (by decide) (by decide)).1,
   (C9_frameCondition.2.2 wCfg wFx wReqAlicePng wSt "v1" "alice" wVideo _
      rfl rfl rfl (by decide) (Or.inr rfl) (by decide) (by decide) (by decide) rfl).1⟩

/-- Claim C10: the registry thumbnail handler validates no content type: any
declared type, the empty string included, is accepted for an in-limit upload by
the owner, stored verbatim in the registry entry, and served back as the
response content type on a later GET. -/
theorem C10_registryStoresAnyType (cfg : ApiConfig) (req : UploadReq) (st : SysState)
    (videoId userID : String) (video : Video) (f : UploadFile)
    (h1 : req.videoId = some videoId) (h2 : req.auth = some userID)
    (h3 : req.file = some f) (h4 : f.size ≤ 10 * 2 ^ 20)
    (h5 : getVideo st.db videoId = some video) (h6 : video.userID = userID)
    (h7 : video.id = videoId) :
    exceptOk (Videos.handlerUploadThumbnail cfg req st).1 = true ∧
    lookupKV videoId ((Videos.handlerUploadThumbnail cfg req st).2.1).videoThumbnails =
      some { data := f.data, mediaType := f.ftype } ∧
    Videos.handlerGetThumbnail ((Videos.handlerUploadThumbnail cfg req st).2.1)
        (some videoId) =
      Except.ok { body := f.data, contentType := f.ftype, cacheControl := "no-store" } := by
  have hs : ¬ f.size > MAX_UPLOAD_SIZE_THUMB := by
    have : MAX_UPLOAD_SIZE_THUMB = 10 * 2 ^ 20 := by decide
    rw [this]; exact not_lt.mpr h4
  unfold Videos.handlerUploadThumbnail
  simp [h1, h2, h3, h5, h6, hs, exceptOk]
  unfold Videos.handlerGetThumbnail
  simp [h7, getVideo, updateVideo, setKV, lookupKV]

/-- An upload request from alice declaring an empty content type. -/
def wReqAliceNoType : UploadReq :=
  { videoId := some "v1", auth := some "alice",
    file := some { size := 3, ftype := "", data := [4, 5, 6] } }

/-- Witness for C10: an upload with empty declared content type succeeds, is
stored verbatim, and the GET serves content type "" with the stored bytes. -/
theorem C10_registryStoresAnyType_witness :
    exceptOk (Videos.handlerUploadThumbnail wCfg wReqAliceNoType wSt).1 = true ∧
    lookupKV "v1" ((Videos.handlerUploadThumbnail wCfg wReqAliceNoType wSt).2.1).videoThumbnails =
      some { data := [4, 5, 6], mediaType := "" } ∧
    Videos.handlerGetThumbnail ((Videos.handlerUploadThumbnail wCfg wReqAliceNoType wSt).2.1)
        (some "v1") =
      Except.ok { body := [4, 5, 6], contentType := "", cacheControl := "no-store" } :=
  C10_registryStoresAnyType wCfg wReqAliceNoType wSt "v1" "alice" wVideo _
    rfl rfl rfl (by decide) (by decide) (by decide) (by decide)

end FileServerCdn
